import Mathlib

/-!
Shallow embedding of the kite-langchain authentication/session manager and
order-placement engine (src/auth_fully_automated.py, src/auth_utils.py,
src/trading.py).

Modelling conventions:
* Python exceptions are modelled as values of `PyError` (carrying `str(e)` and,
  when the text is a JSON object, the pre-parsed fields the code would extract;
  the JSON parser itself is the Python `json` module, an external collaborator).
* Remote brokerage operations (`generate_session`, `place_order`, `orders`,
  `profile`) are modelled by environment records supplying each call's result:
  `Except PyError α` distinguishes a normal return from a raised exception.
* Timestamps are integers (seconds); `datetime.now()` is an explicit `now`
  parameter; `timedelta(hours=8)` is `8 * 3600` seconds.
* Python truthiness of strings/options is modelled explicitly (`""` and `None`
  are falsy).
-/

/-- Sliding-window substring test on character lists: true iff `sub` occurs as a
contiguous sublist.  (Python `sub in s`.) -/
def containsSubAux (sub : List Char) : List Char → Bool
  | [] => sub.isEmpty
  | c :: t => sub.isPrefixOf (c :: t) || containsSubAux sub t

/-- Python `a or b` on optional strings (`None` and `""` are falsy). -/
def pyOr (a b : Option String) : Option String :=
  match a with
  | some s => if s = "" then b else some s
  | none => b

/-- Python `str.isalnum()`: non-empty and every character alphanumeric
(restricted to the ASCII alphabet, which covers Kite request tokens). -/
def pyIsAlnum (s : String) : Bool :=
  !s.isEmpty && s.toList.all Char.isAlphanum

/-- Python `s.lower()` as a character list (character-wise ASCII lowering). -/
def lowerChars (s : String) : List Char :=
  s.toList.map Char.toLower

/-- auth_utils.is_token_expired_error: `"token" in str(e).lower() or "auth" in
str(e).lower()`.  The argument is `str(e)`. -/
def is_token_expired_error (errText : String) : Bool :=
  containsSubAux "token".toList (lowerChars errText)
    || containsSubAux "auth".toList (lowerChars errText)

/-! ## Token store (AutoAuthConfig.save_tokens / load_tokens) -/

/-- The persisted token record `{access_token, refresh_token, expires_at,
generated_at}` written by `save_tokens`. -/
structure TokenRecord where
  access_token : String
  refresh_token : Option String
  expires_at : Option Int
  generated_at : Int
deriving DecidableEq, Repr

/-- State of the tokens file on disk: absent, unreadable/corrupt JSON, or a
well-formed record. -/
inductive StoreState
  | absent
  | corrupt
  | record (t : TokenRecord)
deriving DecidableEq, Repr

/-- AutoAuthConfig.save_tokens: builds the token dict (with
`generated_at = datetime.now().isoformat()`, here the integer `now`) and
overwrites the tokens file with it, regardless of previous contents. -/
def save_tokens (prev : StoreState) (access_token : String)
    (refresh_token : Option String) (expires_at : Option Int) (now : Int) :
    StoreState :=
  let _ := prev
  .record { access_token := access_token, refresh_token := refresh_token,
            expires_at := expires_at, generated_at := now }

/-- AutoAuthConfig.load_tokens: returns the parsed record when the file exists
and parses; on a missing file or any read/parse error it returns `None`. -/
def load_tokens : StoreState → Option TokenRecord
  | .absent => none
  | .corrupt => none
  | .record t => some t

/-! ## FullyAutomatedKiteAuth.is_token_valid -/

/-- FullyAutomatedKiteAuth.is_token_valid.  `probe` is the result of the live
`kc.profile()` round trip: `.ok b` means the call returned a value of
truthiness `b`; `.error` means it raised.  Checks, in source order: falsy
record or falsy `access_token` → false; `expires_at` present and
`now >= expires_at` → false; otherwise the live probe decides, with any probe
exception caught and treated as invalid. -/
def is_token_valid (probe : Except String Bool) (now : Int)
    (tokens : Option TokenRecord) : Bool :=
  match tokens with
  | none => false
  | some t =>
    if t.access_token = "" then false
    else
      match t.expires_at with
      | some exp =>
        if now ≥ exp then false
        else match probe with | .ok b => b | .error _ => false
      | none => match probe with | .ok b => b | .error _ => false

/-! ## FullyAutomatedKiteAuth.get_authenticated_client -/

/-- Environment for `get_authenticated_client`: the loaded token record, the
live-probe behaviour, the current time, and the outcome of a forced
`authenticate_fully_automated` run (`.error` = it raised, `.ok none` = it
returned `None`, `.ok (some tok)` = it produced a token). -/
structure GACEnv where
  tokens : Option TokenRecord
  probe : Except String Bool
  now : Int
  authFlow : Except String (Option String)

/-- Result of `get_authenticated_client`: the bound client (carrying the
access token passed to `set_access_token`), a raised
`TokenExpiredException`, or a raised generic `Exception`. -/
inductive GACResult
  | client (access_token : String)
  | tokenExpired (msg : String)
  | raised (msg : String)
deriving DecidableEq, Repr

/-- The `else` branch of `get_authenticated_client` (token absent or invalid):
with `auto_authenticate=True` it runs `authenticate_fully_automated(force=True)`
and binds or raises; with `auto_authenticate=False` it raises
`TokenExpiredException`.  The `Bool` component records whether a
re-authentication flow was started. -/
def gacFallback (env : GACEnv) (auto_authenticate : Bool) : GACResult × Bool :=
  if auto_authenticate then
    match env.authFlow with
    | .error e => (.raised e, true)
    | .ok (some tok) => (.client tok, true)
    | .ok none => (.raised "Automated authentication failed", true)
  else
    (.tokenExpired "Access token expired or invalid. Please run 'python auth_manager.py auth' to re-authenticate.", false)

/-- FullyAutomatedKiteAuth.get_authenticated_client: loads tokens, checks
validity (any exception from the check is caught and treated as invalid — the
probe `.error` case), and either binds the stored access token or falls back.
The `Bool` component records whether a re-authentication flow was started. -/
def get_authenticated_client (env : GACEnv) (auto_authenticate : Bool) :
    GACResult × Bool :=
  match env.tokens with
  | some t =>
    if is_token_valid env.probe env.now (some t) then
      (.client t.access_token, false)
    else gacFallback env auto_authenticate
  | none => gacFallback env auto_authenticate

/-! ## FullyAutomatedKiteAuth.exchange_request_token -/

/-- Result of the remote `kc.generate_session(request_token, api_secret)`
call: the fields the code reads from the returned dict. -/
structure SessionData where
  access_token : Option String
  refresh_token : Option String
deriving DecidableEq, Repr

/-- Environment for `exchange_request_token`: the remote session call's
outcome, whether the token-file write and the `set_access_token` call succeed
(each raises on `false`), and the current time. -/
structure ExchangeEnv where
  sessionResult : Except String SessionData
  saveOk : Bool
  bindOk : Bool
  now : Int

/-- Observable effects of one `exchange_request_token` call: the returned
boolean, the record written to the token store (if the write happened), the
token passed to `set_access_token` (if reached), the number of
`auth_complete.set()` signals fired, and the final `auth_success` flag. -/
structure ExchangeResult where
  ret : Bool
  saved : Option TokenRecord
  bound : Option String
  signals : Nat
  auth_success : Bool
deriving DecidableEq, Repr

/-- FullyAutomatedKiteAuth.exchange_request_token: calls `generate_session`;
on a truthy `access_token` computes `expires_at = now + timedelta(hours=8)`,
saves the tokens, binds the client, signals `auth_complete`, sets
`auth_success`, and returns `True`; on a falsy/missing `access_token` signals
and returns `False`; any exception anywhere in the `try` block (remote call,
file write, bind) is caught, signalled, and converted to `False`. -/
def exchange_request_token (env : ExchangeEnv) : ExchangeResult :=
  match env.sessionResult with
  | .error _ =>
    { ret := false, saved := none, bound := none, signals := 1,
      auth_success := false }
  | .ok data =>
    match data.access_token with
    | some a =>
      if a = "" then
        { ret := false, saved := none, bound := none, signals := 1,
          auth_success := false }
      else
        let expires_at : Int := env.now + 8 * 3600
        if env.saveOk then
          let store := save_tokens .absent a data.refresh_token
            (some expires_at) env.now
          if env.bindOk then
            { ret := true, saved := load_tokens store, bound := some a,
              signals := 1, auth_success := true }
          else
            { ret := false, saved := load_tokens store, bound := none,
              signals := 1, auth_success := false }
        else
          { ret := false, saved := none, bound := none, signals := 1,
            auth_success := false }
    | none =>
      { ret := false, saved := none, bound := none, signals := 1,
        auth_success := false }

/-! ## AutoAuthCallbackHandler.do_GET -/

/-- A parsed callback GET request: the URL path and the first value of each
relevant query parameter (`None` when absent). -/
structure CallbackRequest where
  path : String
  request_token : Option String
  action : Option String
  status : Option String
deriving DecidableEq, Repr

/-- Observable effects of one `do_GET` call: the HTTP status code sent, the
request token passed to `exchange_request_token` (if it was invoked at all),
and how many times `auth_complete.set()` fired during the handling. -/
structure DoGetResult where
  code : Nat
  exchangedToken : Option String
  signals : Nat
deriving DecidableEq, Repr

/-- AutoAuthCallbackHandler.do_GET: rejects non-`/callback` paths, a missing
or falsy `request_token`, and a token failing the format check
(`isalnum()` and length ≥ 10) with a 400 response and no exchange; on
`action == "login" and status == "success"` it invokes
`exchange_request_token` and answers 200 on success, 400 on failure; every
other action/status combination gets a 400 error page (and nothing else). -/
def do_GET (req : CallbackRequest) (env : ExchangeEnv) : DoGetResult :=
  if req.path ≠ "/callback" then
    { code := 400, exchangedToken := none, signals := 0 }
  else
    match req.request_token with
    | none => { code := 400, exchangedToken := none, signals := 0 }
    | some tok =>
      if tok = "" then
        { code := 400, exchangedToken := none, signals := 0 }
      else if !pyIsAlnum tok || tok.length < 10 then
        { code := 400, exchangedToken := none, signals := 0 }
      else if req.action = some "login" ∧ req.status = some "success" then
        let ex := exchange_request_token env
        { code := if ex.ret then 200 else 400, exchangedToken := some tok,
          signals := ex.signals }
      else
        { code := 400, exchangedToken := none, signals := 0 }

/-! ## Order engine (trading.place_order) -/

/-- An order request: the parameters of `place_order` with their source
defaults.  Prices are rationals (Python floats never undergo arithmetic here,
only sign comparisons). -/
structure OrderRequest where
  tradingsymbol : String
  quantity : Int
  transaction_type : String
  exchange : String := "NSE"
  product : String := "CNC"
  order_type : String := "MARKET"
  price : Option Rat := none
  trigger_price : Option Rat := none
  variety : String := "regular"
  validity : String := "DAY"
deriving DecidableEq, Repr

/-- Structured fields the code would pull out of a JSON-shaped error payload:
`error_type`, `status`, `message`, `error` at top level and
`data.rejection_reason` when `data` is a dict carrying it. -/
structure ErrFields where
  error_type : Option String
  status : Option String
  message : Option String
  error : Option String
  rejection_reason : Option String
deriving DecidableEq, Repr

/-- A raised Python exception as the code observes it: `text` is `str(e)`
(also `str(e.args[0])` for the plain `Exception(msg)` shape the remote client
raises), and `jsonFields` is the parse result when `text` is a JSON object
(parsing itself is the external `json` module). -/
structure PyError where
  text : String
  jsonFields : Option ErrFields := none
deriving DecidableEq, Repr

/-- The remote `kc.place_order` return value: `None`/falsy, a dict (with its
Python truthiness and its `order_id` field), or a bare string order id. -/
inductive OrderResponse
  | noneResp
  | dictResp (order_id : Option String) (truthy : Bool)
  | strResp (s : String)
deriving DecidableEq, Repr

/-- One entry of the remote `kc.orders()` list: the fields the status lookup
reads. -/
structure OrderInfo where
  order_id : Option String
  status : Option String
  status_message : Option String
  rejection_reason : Option String
deriving DecidableEq, Repr

/-- The keyword arguments handed to `kc.place_order`: `price` and
`trigger_price` are included exactly when the caller supplied them
(`is not None`), even if zero or negative. -/
structure OrderParams where
  variety : String
  exchange : String
  tradingsymbol : String
  transaction_type : String
  quantity : Int
  product : String
  order_type : String
  validity : String
  price : Option Rat
  trigger_price : Option Rat
deriving DecidableEq, Repr

/-- A network call performed during `place`: an initial
`get_authenticated_client(auto_authenticate=True)` when no client is bound, a
`kc.place_order` submission, the `kc.orders()` status lookup, or the
re-authentication triggered by a token-classified submission error. -/
inductive NetCall
  | auth
  | placeOrder (params : OrderParams)
  | ordersLookup
  | reauth
deriving DecidableEq, Repr

/-- The tagged outcome dict returned by `place_order`. -/
inductive Outcome
  | validation_error (error message : String)
  | authentication_error (error : String)
  | success (order_id : Option String) (order_status : String)
  | placed_but_rejected (order_id : String) (order_status : Option String)
      (rejection_reason : Option String)
  | failed (error : String) (error_code error_message rejection_reason :
      Option String)
deriving DecidableEq, Repr

/-- True exactly on `validation_error` outcomes. -/
def Outcome.isValidationError : Outcome → Bool
  | .validation_error _ _ => true
  | _ => false

/-- Environment for one `place_order` run: whether the module-level client is
already bound at entry, and the result of each remote call the run may make,
in program order (first submission, status lookup, re-authentication, retried
submission). -/
structure PlaceEnv where
  kcInit : Bool
  authResult : Except PyError Unit
  placeResult1 : Except PyError OrderResponse
  ordersResult : Except PyError (List OrderInfo)
  reauthResult : Except PyError Unit
  placeResult2 : Except PyError OrderResponse

/-- Python `price is None or price <= 0` on an optional price. -/
def missingOrNonpos : Option Rat → Bool
  | none => true
  | some p => decide (p ≤ 0)

/-- The input-validation prefix of `place_order` (lines 100-140), in source
order; `some (error, message)` is the first failing check's response fields.
The `isinstance` checks hold by typing. -/
def validate_order (req : OrderRequest) : Option (String × String) :=
  if req.tradingsymbol = "" then
    some ("Invalid trading symbol", "Trading symbol must be a non-empty string")
  else if req.quantity ≤ 0 then
    some ("Invalid quantity", "Quantity must be a positive integer")
  else if ¬(req.transaction_type = "BUY" ∨ req.transaction_type = "SELL") then
    some ("Invalid transaction type", "Transaction type must be 'BUY' or 'SELL'")
  else if ¬(req.exchange = "NSE" ∨ req.exchange = "BSE" ∨ req.exchange = "NFO"
      ∨ req.exchange = "CDS" ∨ req.exchange = "MCX") then
    some ("Invalid exchange", "Exchange must be one of: NSE, BSE, NFO, CDS, MCX")
  else if (req.order_type = "LIMIT" ∨ req.order_type = "SL")
      ∧ missingOrNonpos req.price then
    some ("Invalid price",
      "Price is required and must be positive for " ++ req.order_type ++ " orders")
  else if (req.order_type = "SL" ∨ req.order_type = "SL-M")
      ∧ missingOrNonpos req.trigger_price then
    some ("Invalid trigger price",
      "Trigger price is required and must be positive for " ++ req.order_type ++ " orders")
  else none

/-- The `params` dict built at lines 160-172 plus the `variety` keyword:
`price`/`trigger_price` appear iff not `None`. -/
def buildParams (req : OrderRequest) : OrderParams :=
  { variety := req.variety, exchange := req.exchange,
    tradingsymbol := req.tradingsymbol,
    transaction_type := req.transaction_type, quantity := req.quantity,
    product := req.product, order_type := req.order_type,
    validity := req.validity, price := req.price,
    trigger_price := req.trigger_price }

/-- Order-id extraction (lines 178-184): only a truthy response is inspected;
a dict yields its `order_id` field, a string yields itself. -/
def extract_order_id : OrderResponse → Option String
  | .noneResp => none
  | .dictResp oid truthy => if truthy then oid else none
  | .strResp s => if s = "" then none else some s

/-- Error-payload parsing (lines 307-343) for a plain exception whose
`args[0]` prints as `text`: if the text looks like a JSON object
(`{`...`}` after strip) and parses, extract
(`error_type or status`, `message or error`, `data.rejection_reason`); if it
looks like JSON but fails to parse, or is not JSON-shaped, the raw text
becomes the error message. -/
def parse_order_error (e : PyError) : Option String × Option String × Option String :=
  if e.text.trim.startsWith "\x7b" ∧ e.text.trim.endsWith "\x7d" then
    match e.jsonFields with
    | some f =>
      (pyOr f.error_type f.status, pyOr f.message f.error, f.rejection_reason)
    | none => (none, some e.text, none)
  else (none, some e.text, none)

/-- Python `order_status or "PENDING"`. -/
def pyStatusOr : Option String → String
  | some s => if s = "" then "PENDING" else s
  | none => "PENDING"

/-- The loop at lines 198-201: first order whose `order_id` field equals the
placed id. -/
def findOrder (orders : List OrderInfo) (oid : String) : Option OrderInfo :=
  orders.find? (fun o => o.order_id = some oid)

/-- Post-submission processing (lines 177-257): with a truthy order id, look
the order up in `kc.orders()`; `REJECTED`/`CANCELLED` status becomes
`placed_but_rejected`; otherwise (including a lookup exception or an absent
match, both swallowed) a `success` outcome with `status or "PENDING"`. -/
def afterPlace (env : PlaceEnv) (order_id : Option String)
    (tr : List NetCall) : Outcome × List NetCall :=
  match order_id with
  | some oid =>
    if oid = "" then (.success (some oid) (pyStatusOr none), tr)
    else
      match env.ordersResult with
      | .error _ =>
        (.success (some oid) (pyStatusOr none), tr ++ [.ordersLookup])
      | .ok orders =>
        match findOrder orders oid with
        | some po =>
          if po.status = some "REJECTED" ∨ po.status = some "CANCELLED" then
            (.placed_but_rejected oid po.status
              (pyOr po.status_message po.rejection_reason),
              tr ++ [.ordersLookup])
          else
            (.success (some oid) (pyStatusOr po.status), tr ++ [.ordersLookup])
        | none =>
          (.success (some oid) (pyStatusOr none), tr ++ [.ordersLookup])
  | none => (.success none (pyStatusOr none), tr)

/-- The `try` body and handler of lines 159-384: submit the order; on a
normal return run the status lookup; on an exception, a token-classified
error triggers exactly one re-authentication and, if that succeeds, exactly
one retried submission (whose own failure, like a re-authentication failure,
yields `authentication_error`); any other error is parsed into a `failed`
outcome. -/
def placeMain (req : OrderRequest) (env : PlaceEnv) (tr : List NetCall) :
    Outcome × List NetCall :=
  let params := buildParams req
  match env.placeResult1 with
  | .ok resp =>
    afterPlace env (extract_order_id resp) (tr ++ [.placeOrder params])
  | .error e =>
    if is_token_expired_error e.text then
      match env.reauthResult with
      | .error ae =>
        (.authentication_error ae.text, tr ++ [.placeOrder params, .reauth])
      | .ok _ =>
        match env.placeResult2 with
        | .ok resp2 =>
          (.success (extract_order_id resp2) "PENDING",
            tr ++ [.placeOrder params, .reauth, .placeOrder params])
        | .error e2 =>
          (.authentication_error e2.text,
            tr ++ [.placeOrder params, .reauth, .placeOrder params])
    else
      let parsed := parse_order_error e
      (.failed e.text parsed.1 parsed.2.1 parsed.2.2,
        tr ++ [.placeOrder params])

/-- trading.place_order: validate (returning before any network call on
failure); ensure a client, authenticating once if none is bound (an
authentication failure here is an `authentication_error` outcome); then run
the submission/lookup/retry body.  The second component lists every network
call performed, in order. -/
def place_order (req : OrderRequest) (env : PlaceEnv) :
    Outcome × List NetCall :=
  match validate_order req with
  | some em => (.validation_error em.1 em.2, [])
  | none =>
    if env.kcInit then placeMain req env []
    else
      match env.authResult with
      | .error e => (.authentication_error e.text, [.auth])
      | .ok _ => placeMain req env [.auth]

/-- Number of `placeOrder` submissions in a trace. -/
def countPlace : List NetCall → Nat
  | [] => 0
  | .placeOrder _ :: t => countPlace t + 1
  | _ :: t => countPlace t

/-- Number of re-authentications in a trace. -/
def countReauth : List NetCall → Nat
  | [] => 0
  | .reauth :: t => countReauth t + 1
  | _ :: t => countReauth t

/-! ## Theorems -/

/-- C2: every return path of `exchange_request_token` — successful exchange,
response missing an access_token, and remote call raising — fires the
waiter's completion event exactly once. -/
theorem exchange_request_token_signals_once (env : ExchangeEnv) :
    (exchange_request_token env).signals = 1 := by
  rcases env with ⟨sr, so, bo, n⟩
  rcases sr with e | ⟨a?, rt⟩
  · rfl
  · rcases a? with _ | a
    · rfl
    · cases so <;> cases bo <;> dsimp [exchange_request_token] <;> split <;> rfl

/-- C4: a successful exchange persists a record whose `expires_at` is the
current time plus the fixed 8-hour window, and binds the client to the new
access token before returning `True`. -/
theorem exchange_request_token_success (env : ExchangeEnv) (d : SessionData)
    (a : String) (hs : env.sessionResult = .ok d) (ha : d.access_token = some a)
    (hne : a ≠ "") (hsave : env.saveOk = true) (hbind : env.bindOk = true) :
    (exchange_request_token env).ret = true ∧
    (exchange_request_token env).saved =
      some { access_token := a, refresh_token := d.refresh_token,
             expires_at := some (env.now + 8 * 3600), generated_at := env.now } ∧
    (exchange_request_token env).bound = some a := by
  simp [exchange_request_token, hs, ha, hne, hsave, hbind, save_tokens,
    load_tokens]

/-- Concrete environment for the C4 witness. -/
def envEx : ExchangeEnv :=
  { sessionResult := .ok { access_token := some "acctok", refresh_token := some "reftok" },
    saveOk := true, bindOk := true, now := 1000 }

/-- Witness for C4 at a concrete successful exchange. -/
theorem exchange_request_token_success_witness :
    envEx.sessionResult = .ok { access_token := some "acctok", refresh_token := some "reftok" } ∧
    (exchange_request_token envEx).ret = true ∧
    (exchange_request_token envEx).saved =
      some { access_token := "acctok", refresh_token := some "reftok",
             expires_at := some (1000 + 8 * 3600), generated_at := 1000 } ∧
    (exchange_request_token envEx).bound = some "acctok" := by
  refine ⟨rfl, ?_⟩
  exact exchange_request_token_success envEx
    { access_token := some "acctok", refresh_token := some "reftok" } "acctok"
    rfl rfl (by decide) rfl rfl

/-- C5: `is_token_valid` returns false whenever the record is absent, its
access token is empty, or `expires_at` is at or before the current time (no
grace period: invalid exactly at `expires_at`); being a total function it
never raises. -/
theorem is_token_valid_false_cases (probe : Except String Bool) (now : Int)
    (tokens : Option TokenRecord)
    (h : tokens = none ∨ ∃ t, tokens = some t ∧
        (t.access_token = "" ∨ ∃ exp, t.expires_at = some exp ∧ exp ≤ now)) :
    is_token_valid probe now tokens = false := by
  rcases h with h | ⟨t, ht, h⟩
  · subst h; rfl
  · subst ht
    rcases h with h | ⟨exp, he, hle⟩
    · simp [is_token_valid, h]
    · by_cases hat : t.access_token = ""
      · simp [is_token_valid, hat]
      · simp [is_token_valid, hat, he, show now ≥ exp from hle]

/-- Concrete record for the C5 witness: expired exactly at the current time. -/
def recExp : TokenRecord :=
  { access_token := "sometoken", refresh_token := none, expires_at := some 500,
    generated_at := 100 }

/-- Witness for C5: a record whose `expires_at` equals `now` is already
invalid even though the live probe would succeed. -/
theorem is_token_valid_false_cases_witness :
    recExp.expires_at = some 500 ∧
    is_token_valid (.ok true) 500 (some recExp) = false := by
  refine ⟨rfl, ?_⟩
  exact is_token_valid_false_cases (.ok true) 500 (some recExp)
    (Or.inr ⟨recExp, rfl, Or.inr ⟨500, rfl, by decide⟩⟩)

/-- C9: saving a token record and immediately loading it back yields the very
fields that were saved (in particular identical `access_token` and
`refresh_token`), whatever was on disk before. -/
theorem save_load_roundtrip (prev : StoreState) (a : String)
    (r : Option String) (e : Option Int) (n : Int) :
    load_tokens (save_tokens prev a r e n) =
      some { access_token := a, refresh_token := r, expires_at := e,
             generated_at := n } := by
  rfl

/-- C7: a callback whose `request_token` is non-alphanumeric or shorter than
10 characters gets a 400 response, no token exchange, and no completion
signal. -/
theorem callback_rejects_malformed_token (req : CallbackRequest)
    (env : ExchangeEnv) (tok : String) (hpath : req.path = "/callback")
    (htok : req.request_token = some tok)
    (hbad : pyIsAlnum tok = false ∨ tok.length < 10) :
    do_GET req env = { code := 400, exchangedToken := none, signals := 0 } := by
  unfold do_GET
  rw [if_neg (by rw [hpath]; simp), htok]
  by_cases h0 : tok = ""
  · simp [h0]
  · rcases hbad with h | h
    · simp [h0, h]
    · simp [h0, h]

/-- Concrete request for the C7 witness: a five-character token. -/
def reqShortTok : CallbackRequest :=
  { path := "/callback", request_token := some "abc12", action := some "login",
    status := some "success" }

/-- Witness for C7: the length-5 token from the spec example is rejected with
no exchange and no signal. -/
theorem callback_rejects_malformed_token_witness :
    ("abc12" : String).length < 10 ∧
    do_GET reqShortTok envEx = { code := 400, exchangedToken := none, signals := 0 } := by
  refine ⟨by decide, ?_⟩
  exact callback_rejects_malformed_token reqShortTok envEx "abc12" rfl rfl
    (Or.inr (by decide))

/-- Concrete request for the C6 counterexample: a well-formed token but
`action=logout`. -/
def reqBadCombo : CallbackRequest :=
  { path := "/callback", request_token := some "abcdefghij",
    action := some "logout", status := some "success" }

/-- C6 counterexample: on a well-formed token with a non-(login, success)
parameter combination the handler answers 400 but fires zero completion
signals — the waiter is NOT signalled, contrary to the claim. -/
theorem callback_other_combo_does_not_signal :
    (do_GET reqBadCombo envEx).code = 400 ∧
    (do_GET reqBadCombo envEx).signals = 0 := by
  constructor <;> rfl

/-- C6 (amended): on a well-formed token whose `action`/`status` pair is not
(`login`, `success`) the handler responds 400 with a diagnostic page, invokes
no exchange, and fires no completion signal (the waiter is released only by
its timeout). -/
theorem callback_other_combo_400_no_signal (req : CallbackRequest)
    (env : ExchangeEnv) (tok : String) (hpath : req.path = "/callback")
    (htok : req.request_token = some tok) (hfmt : pyIsAlnum tok = true)
    (hlen : 10 ≤ tok.length)
    (hcombo : ¬(req.action = some "login" ∧ req.status = some "success")) :
    do_GET req env = { code := 400, exchangedToken := none, signals := 0 } := by
  have h0 : tok ≠ "" := by
    intro h; rw [h] at hfmt; exact absurd hfmt (by decide)
  unfold do_GET
  rw [if_neg (by rw [hpath]; simp), htok]
  simp [h0, hfmt, hcombo, show ¬tok.length < 10 from by omega]

/-- Concrete request for the C6 amended witness: well-formed token,
`status=failure`. -/
def reqFailedLogin : CallbackRequest :=
  { path := "/callback", request_token := some "ZZtoken999",
    action := some "login", status := some "failure" }

/-- Witness for the amended C6 at a concrete failed-login callback. -/
theorem callback_other_combo_400_no_signal_witness :
    pyIsAlnum "ZZtoken999" = true ∧
    do_GET reqFailedLogin envEx = { code := 400, exchangedToken := none, signals := 0 } := by
  refine ⟨by decide, ?_⟩
  exact callback_other_combo_400_no_signal reqFailedLogin envEx "ZZtoken999"
    rfl rfl (by decide) (by decide) (by decide)

/-- C8: with `auto_authenticate=False`, a validating persisted token is bound
and returned, while an absent or non-validating token yields
`TokenExpiredException` with no re-authentication flow started. -/
theorem gac_no_auto_behaviour (env : GACEnv) :
    (∀ t, env.tokens = some t →
      is_token_valid env.probe env.now (some t) = true →
      get_authenticated_client env false = (.client t.access_token, false)) ∧
    ((env.tokens = none ∨ ∃ t, env.tokens = some t ∧
        is_token_valid env.probe env.now (some t) = false) →
      ∃ m, get_authenticated_client env false = (.tokenExpired m, false)) := by
  constructor
  · intro t ht hv
    simp [get_authenticated_client, ht, hv]
  · intro h
    rcases h with h | ⟨t, ht, hv⟩
    · exact ⟨"Access token expired or invalid. Please run 'python auth_manager.py auth' to re-authenticate.",
        by simp [get_authenticated_client, h, gacFallback]⟩
    · exact ⟨"Access token expired or invalid. Please run 'python auth_manager.py auth' to re-authenticate.",
        by simp [get_authenticated_client, ht, hv, gacFallback]⟩

/-- Concrete environment for the C8 witness: an expired record on disk. -/
def envExpiredTok : GACEnv :=
  { tokens := some recExp, probe := .ok true, now := 99999,
    authFlow := .ok (some "freshtok") }

/-- Witness for C8: with the expired record and `auto_authenticate=False` the
call raises `TokenExpiredException` and starts no re-authentication. -/
theorem gac_no_auto_behaviour_witness :
    is_token_valid envExpiredTok.probe envExpiredTok.now (some recExp) = false ∧
    ∃ m, get_authenticated_client envExpiredTok false = (.tokenExpired m, false) := by
  refine ⟨by decide, ?_⟩
  exact (gac_no_auto_behaviour envExpiredTok).2 (Or.inr ⟨recExp, rfl, by decide⟩)

/-- Characterization of requests that pass validation: every check of the
source's validation chain holds. -/
theorem validate_order_eq_none_iff (req : OrderRequest) :
    validate_order req = none ↔
      (req.tradingsymbol ≠ "" ∧ ¬req.quantity ≤ 0 ∧
       (req.transaction_type = "BUY" ∨ req.transaction_type = "SELL") ∧
       (req.exchange = "NSE" ∨ req.exchange = "BSE" ∨ req.exchange = "NFO"
         ∨ req.exchange = "CDS" ∨ req.exchange = "MCX") ∧
       ¬((req.order_type = "LIMIT" ∨ req.order_type = "SL")
         ∧ missingOrNonpos req.price = true) ∧
       ¬((req.order_type = "SL" ∨ req.order_type = "SL-M")
         ∧ missingOrNonpos req.trigger_price = true)) := by
  unfold validate_order
  split_ifs with h1 h2 h3 h4 h5 h6 <;> simp_all

/-- C3: an order with non-positive quantity, or a LIMIT order with no price,
is answered with a `validation_error` outcome and performs zero network
calls. -/
theorem place_order_validation_short_circuit (req : OrderRequest)
    (env : PlaceEnv)
    (h : req.quantity ≤ 0 ∨ (req.order_type = "LIMIT" ∧ req.price = none)) :
    (place_order req env).1.isValidationError = true ∧
    (place_order req env).2 = [] := by
  have hv : validate_order req ≠ none := by
    intro hn
    rw [validate_order_eq_none_iff] at hn
    obtain ⟨-, hq, -, -, hp, -⟩ := hn
    rcases h with h | ⟨hty, hpr⟩
    · exact hq h
    · exact hp ⟨Or.inl hty, by simp [missingOrNonpos, hpr]⟩
  cases hvo : validate_order req with
  | none => exact absurd hvo hv
  | some em => simp [place_order, hvo, Outcome.isValidationError]

/-- Concrete zero-quantity request for the C3 witness. -/
def reqZeroQty : OrderRequest :=
  { tradingsymbol := "RELIANCE", quantity := 0, transaction_type := "BUY" }

/-- Concrete environment for the order-engine witnesses: a bound client whose
submission succeeds. -/
def envPlaceOk : PlaceEnv :=
  { kcInit := true, authResult := .ok (),
    placeResult1 := .ok (.strResp "151220000000000"),
    ordersResult := .ok [], reauthResult := .ok (),
    placeResult2 := .ok (.strResp "151220000000000") }

/-- Witness for C3 at the concrete zero-quantity request. -/
theorem place_order_validation_short_circuit_witness :
    reqZeroQty.quantity ≤ 0 ∧
    ((place_order reqZeroQty envPlaceOk).1.isValidationError = true ∧
     (place_order reqZeroQty envPlaceOk).2 = []) := by
  refine ⟨by decide, ?_⟩
  exact place_order_validation_short_circuit reqZeroQty envPlaceOk
    (Or.inl (by decide))

/-- Every trace produced by the post-submission processing extends the trace
it was given. -/
theorem afterPlace_trace (env : PlaceEnv) (order_id : Option String)
    (tr : List NetCall) :
    ∃ rest, (afterPlace env order_id tr).2 = tr ++ rest := by
  rcases order_id with _ | oid
  · exact ⟨[], by simp [afterPlace]⟩
  · by_cases h : oid = ""
    · exact ⟨[], by simp [afterPlace, h]⟩
    · rcases ho : env.ordersResult with e | orders
      · exact ⟨[.ordersLookup], by simp [afterPlace, h, ho]⟩
      · rcases hf : findOrder orders oid with _ | po
        · exact ⟨[.ordersLookup], by simp [afterPlace, h, ho, hf]⟩
        · by_cases hst : po.status = some "REJECTED" ∨ po.status = some "CANCELLED"
          · exact ⟨[.ordersLookup], by simp [afterPlace, h, ho, hf, hst]⟩
          · exact ⟨[.ordersLookup], by simp [afterPlace, h, ho, hf, hst]⟩

/-- Every run of the submission body performs the first submission with the
parameters built from the request, as the first network call after the trace
it was given. -/
theorem placeMain_starts_with_submit (req : OrderRequest) (env : PlaceEnv)
    (tr : List NetCall) :
    ∃ rest, (placeMain req env tr).2 =
      tr ++ (NetCall.placeOrder (buildParams req) :: rest) := by
  rcases hp : env.placeResult1 with e | resp
  · by_cases ht : is_token_expired_error e.text = true
    · rcases hr : env.reauthResult with ae | u
      · exact ⟨[.reauth], by simp [placeMain, hp, ht, hr]⟩
      · rcases h2 : env.placeResult2 with e2 | r2
        · exact ⟨[.reauth, .placeOrder (buildParams req)],
            by simp [placeMain, hp, ht, hr, h2]⟩
        · exact ⟨[.reauth, .placeOrder (buildParams req)],
            by simp [placeMain, hp, ht, hr, h2]⟩
    · exact ⟨[], by simp [placeMain, hp, ht]⟩
  · obtain ⟨rest, hrest⟩ :=
      afterPlace_trace env (extract_order_id resp) (tr ++ [.placeOrder (buildParams req)])
    refine ⟨rest, ?_⟩
    simp [placeMain, hp, hrest]

/-- C10: a MARKET order with an otherwise well-formed request is not rejected
by validation even when a supplied price or trigger price is zero or
negative; both are passed through verbatim to the remote submission. -/
theorem place_order_market_price_passthrough (req : OrderRequest)
    (env : PlaceEnv) (p : Rat) (hty : req.order_type = "MARKET")
    (hsym : req.tradingsymbol ≠ "") (hq : 0 < req.quantity)
    (htx : req.transaction_type = "BUY" ∨ req.transaction_type = "SELL")
    (hex : req.exchange = "NSE" ∨ req.exchange = "BSE" ∨ req.exchange = "NFO"
      ∨ req.exchange = "CDS" ∨ req.exchange = "MCX")
    (hp : req.price = some p ∨ req.trigger_price = some p) (hple : p ≤ 0)
    (hkc : env.kcInit = true) :
    validate_order req = none ∧
    (∃ rest, (place_order req env).2 =
      NetCall.placeOrder (buildParams req) :: rest) ∧
    (buildParams req).price = req.price ∧
    (buildParams req).trigger_price = req.trigger_price := by
  have hv : validate_order req = none := by
    rw [validate_order_eq_none_iff]
    refine ⟨hsym, by omega, htx, hex, ?_, ?_⟩
    · rintro ⟨h1, -⟩
      rcases h1 with h1 | h1 <;> rw [hty] at h1 <;> exact absurd h1 (by decide)
    · rintro ⟨h1, -⟩
      rcases h1 with h1 | h1 <;> rw [hty] at h1 <;> exact absurd h1 (by decide)
  refine ⟨hv, ?_, rfl, rfl⟩
  obtain ⟨rest, hrest⟩ := placeMain_starts_with_submit req env []
  refine ⟨rest, ?_⟩
  simp [place_order, hv, hkc]
  rw [hrest]
  rfl

/-- Concrete MARKET request with a negative supplied price for the C10
witness. -/
def reqNegPrice : OrderRequest :=
  { tradingsymbol := "TCS", quantity := 5, transaction_type := "SELL",
    price := some (-12) }

/-- Witness for C10: the negative price neither trips validation nor is
dropped from the submitted parameters. -/
theorem place_order_market_price_passthrough_witness :
    reqNegPrice.price = some (-12) ∧
    (validate_order reqNegPrice = none ∧
     (∃ rest, (place_order reqNegPrice envPlaceOk).2 =
       NetCall.placeOrder (buildParams reqNegPrice) :: rest) ∧
     (buildParams reqNegPrice).price = reqNegPrice.price ∧
     (buildParams reqNegPrice).trigger_price = reqNegPrice.trigger_price) := by
  refine ⟨rfl, ?_⟩
  exact place_order_market_price_passthrough reqNegPrice envPlaceOk (-12)
    rfl (by decide) (by decide) (Or.inr rfl) (Or.inl rfl) (Or.inl rfl)
    (by decide) rfl

/-- C1: when a validated order's remote submission raises a token-classified
error on a bound client, `place_order` performs exactly one re-authentication
and at most one retried submission (never a second); a failed
re-authentication forgoes the retry and yields `authentication_error`, a
successful retry yields `success`, and a retry that raises again yields
`authentication_error`. -/
theorem place_order_token_error_single_retry (req : OrderRequest)
    (env : PlaceEnv) (e : PyError)
    (hval : validate_order req = none) (hkc : env.kcInit = true)
    (hp1 : env.placeResult1 = .error e)
    (htok : is_token_expired_error e.text = true) :
    countReauth (place_order req env).2 = 1 ∧
    countPlace (place_order req env).2 ≤ 2 ∧
    (∀ ae, env.reauthResult = .error ae →
      (place_order req env).1 = .authentication_error ae.text ∧
      countPlace (place_order req env).2 = 1) ∧
    (∀ r2, env.reauthResult = .ok () → env.placeResult2 = .ok r2 →
      (place_order req env).1 = .success (extract_order_id r2) "PENDING" ∧
      countPlace (place_order req env).2 = 2) ∧
    (∀ e2, env.reauthResult = .ok () → env.placeResult2 = .error e2 →
      (place_order req env).1 = .authentication_error e2.text ∧
      countPlace (place_order req env).2 = 2) := by
  have hred : place_order req env = placeMain req env [] := by
    simp [place_order, hval, hkc]
  rw [hred]
  rcases hr : env.reauthResult with ae | u
  · have hmain : placeMain req env [] =
        (.authentication_error ae.text,
          [.placeOrder (buildParams req), .reauth]) := by
      simp [placeMain, hp1, htok, hr]
    rw [hmain]
    refine ⟨rfl, by simp [countPlace], ?_, ?_, ?_⟩
    · intro ae' hae'
      injection hae' with h
      subst h
      exact ⟨rfl, rfl⟩
    · intro r2 hok _
      exact Except.noConfusion hok
    · intro e2 hok _
      exact Except.noConfusion hok
  · rcases h2 : env.placeResult2 with e2 | r2
    · have hmain : placeMain req env [] =
          (.authentication_error e2.text,
            [.placeOrder (buildParams req), .reauth,
             .placeOrder (buildParams req)]) := by
        simp [placeMain, hp1, htok, hr, h2]
      rw [hmain]
      refine ⟨rfl, by simp [countPlace], ?_, ?_, ?_⟩
      · intro ae' hae'
        exact Except.noConfusion hae'
      · intro r2' _ hok2
        exact Except.noConfusion hok2
      · intro e2' _ hok2
        injection hok2 with h
        subst h
        exact ⟨rfl, rfl⟩
    · have hmain : placeMain req env [] =
          (.success (extract_order_id r2) "PENDING",
            [.placeOrder (buildParams req), .reauth,
             .placeOrder (buildParams req)]) := by
        simp [placeMain, hp1, htok, hr, h2]
      rw [hmain]
      refine ⟨rfl, by simp [countPlace], ?_, ?_, ?_⟩
      · intro ae' hae'
        exact Except.noConfusion hae'
      · intro r2' _ hok2
        injection hok2 with h
        subst h
        exact ⟨rfl, rfl⟩
      · intro e2' _ hok2
        exact Except.noConfusion hok2

/-- Concrete environment for the C1 witness: the first submission raises a
token-classified error, re-authentication succeeds, and the retried
submission returns a bare order-id string. -/
def envTokenRetry : PlaceEnv :=
  { kcInit := true, authResult := .ok (),
    placeResult1 := .error { text := "TokenException: Invalid access token" },
    ordersResult := .ok [], reauthResult := .ok (),
    placeResult2 := .ok (.strResp "240800001234") }

/-- Concrete valid MARKET order for the C1 witness. -/
def reqValidBuy : OrderRequest :=
  { tradingsymbol := "INFY", quantity := 2, transaction_type := "BUY" }

/-- Witness for C1: at the concrete token-error environment the run
re-authenticates once, retries once, and ends in `success`. -/
theorem place_order_token_error_single_retry_witness :
    validate_order reqValidBuy = none ∧
    is_token_expired_error "TokenException: Invalid access token" = true ∧
    (countReauth (place_order reqValidBuy envTokenRetry).2 = 1 ∧
     countPlace (place_order reqValidBuy envTokenRetry).2 ≤ 2 ∧
     (∀ ae, envTokenRetry.reauthResult = .error ae →
       (place_order reqValidBuy envTokenRetry).1 = .authentication_error ae.text ∧
       countPlace (place_order reqValidBuy envTokenRetry).2 = 1) ∧
     (∀ r2, envTokenRetry.reauthResult = .ok () →
       envTokenRetry.placeResult2 = .ok r2 →
       (place_order reqValidBuy envTokenRetry).1 =
         .success (extract_order_id r2) "PENDING" ∧
       countPlace (place_order reqValidBuy envTokenRetry).2 = 2) ∧
     (∀ e2, envTokenRetry.reauthResult = .ok () →
       envTokenRetry.placeResult2 = .error e2 →
       (place_order reqValidBuy envTokenRetry).1 = .authentication_error e2.text ∧
       countPlace (place_order reqValidBuy envTokenRetry).2 = 2)) := by
  refine ⟨rfl, by decide, ?_⟩
  exact place_order_token_error_single_retry reqValidBuy envTokenRetry
    { text := "TokenException: Invalid access token" } rfl rfl rfl (by decide)
